import Mathlib

/-!
Shallow embedding of the poc-barcodescanner camera-session / scan-loop code,
with theorems settling the frozen claims about it.

Embedded here:
* Quagga2/jsQR variant (`part_000`): `handleScanResult` (debounce), the
  `scanFrame` loop and `stopQRScanner`, the Quagga detection path,
  `startScanner` mode dispatch.
* html5-qrcode variant (`part_001`): camera selection, the decode callbacks,
  `stopScanner`.
* The page layer (`page.tsx`): `handleScanSuccess`, `clearHistory`,
  `totalTokens` and the CO2 figure.
* Parts of the component that the staged sources do not contain (the ZXing
  variant's init/stop/open path) are modelled faithful to the spec's words.
-/

/-! ## Debounce state and `handleScanResult` (Quagga2/jsQR variant, part_000) -/

/-- The mutable refs `lastCodeRef` / `lastCodeTimeRef` that govern duplicate
suppression.  Timestamps are milliseconds as natural numbers. -/
structure DebounceState where
  lastText : String
  lastTimestamp : Nat
deriving DecidableEq, Repr

/-- Initial refs: `lastCodeRef = ""`, `lastCodeTimeRef = 0`. -/
def initDebounce : DebounceState := ⟨"", 0⟩

/-- The acceptance test of `handleScanResult`:
`code && (code !== lastCodeRef.current || now - lastCodeTimeRef.current > 2000)`.
JavaScript truthiness of a string means "non-empty". -/
def debounceAccepts (st : DebounceState) (code : String) (now : Nat) : Bool :=
  code ≠ "" && (code ≠ st.lastText || decide (2000 < now - st.lastTimestamp))

/-- `handleScanResult` from part_000: returns the updated refs and whether the
result was forwarded to `onScanSuccess`.  On acceptance the refs are set to the
accepted code and time. -/
def handleScanResult (st : DebounceState) (code : String) (now : Nat) :
    DebounceState × Bool :=
  if debounceAccepts st code now then (⟨code, now⟩, true) else (st, false)

/-- Modelled from the spec's words (for comparison with the source): a decode
result is accepted iff its text differs from `lastText`, or at least the
2000 ms window has elapsed since `lastTimestamp`. -/
def specAccepts (st : DebounceState) (code : String) (now : Nat) : Bool :=
  code ≠ st.lastText || decide (2000 ≤ now - st.lastTimestamp)

/-- Forwarded results of a whole run of decode attempts `(text, time)`,
threading the debounce refs. -/
def scanRun (st : DebounceState) : List (String × Nat) → List (String × Nat)
  | [] => []
  | (c, t) :: rest =>
    match handleScanResult st c t with
    | (st2, true) => (c, t) :: scanRun st2 rest
    | (st2, false) => scanRun st2 rest

/-! ## String helpers for camera-label matching -/

/-- Character-list prefix test (used to embed JavaScript `String.includes`). -/
def startsWithChars : List Char → List Char → Bool
  | [], _ => true
  | _ :: _, [] => false
  | a :: as, b :: bs => a == b && startsWithChars as bs

/-- Character-list substring test. -/
def hasSubstrChars (pat : List Char) : List Char → Bool
  | [] => startsWithChars pat []
  | c :: rest => startsWithChars pat (c :: rest) || hasSubstrChars pat rest

/-- ASCII lower-casing of one character, as `toLowerCase` acts on the
ASCII camera labels that occur here. -/
def lowerChar (c : Char) : Char :=
  if 65 ≤ c.toNat ∧ c.toNat ≤ 90 then Char.ofNat (c.toNat + 32) else c

/-- `label.toLowerCase().includes(pat)` for an already-lowercase `pat`. -/
def lowerIncludes (label pat : String) : Bool :=
  hasSubstrChars pat.data (label.data.map lowerChar)

/-- The back-camera label predicate used by every variant:
lowercased label includes "back", "rear" or "environment". -/
def labelPrefersBack (label : String) : Bool :=
  lowerIncludes label "back" || lowerIncludes label "rear" ||
    lowerIncludes label "environment"

example : labelPrefersBack "Back Camera" = true := by decide
example : labelPrefersBack "Front Camera" = false := by decide

/-! ## Camera devices, default selection (C3) and `initializeScanner` (C6) -/

/-- `MediaDeviceInfo.kind` values relevant here. -/
inductive DeviceKind
  | videoinput
  | audioinput
  | other
deriving DecidableEq, Repr

/-- An enumerated device: `{deviceId, label, kind}`.  The html5-qrcode variant
calls the identifier `id`; both are modelled by `deviceId`. -/
structure CameraDevice where
  deviceId : String
  label : String
  kind : DeviceKind
deriving DecidableEq, Repr

/-- ZXing variant (`initializeScanner`, lines 70-79): find the first device
whose lowercased label includes "back"/"rear"/"environment"; the selected id is
`backCamera?.deviceId || videoDevices[videoDevices.length - 1].deviceId`, where
JavaScript `||` also skips an empty matched id. -/
def selectDefaultDeviceZXing (devs : List CameraDevice) : String :=
  let backId :=
    ((devs.find? fun d => labelPrefersBack d.label).map CameraDevice.deviceId).getD ""
  if backId ≠ "" then backId
  else ((devs.getLast?).map CameraDevice.deviceId).getD ""

/-- html5-qrcode variant (`part_001`, getCameras effect): same label search, but
the fallback is `backCamera?.id || devices[0].id` - the FIRST device. -/
def selectDefaultDeviceHtml5 (devs : List CameraDevice) : String :=
  let backId :=
    ((devs.find? fun d => labelPrefersBack d.label).map CameraDevice.deviceId).getD ""
  if backId ≠ "" then backId
  else ((devs.head?).map CameraDevice.deviceId).getD ""

/-- Resulting component state of `initializeScanner` (ZXing variant). -/
structure InitResult where
  hasPermission : Option Bool
  cameras : List CameraDevice
  selectedCamera : String
  errorMsg : Option String
  /-- every track of the throwaway permission stream got `track.stop()` -/
  throwawayReleased : Bool
deriving DecidableEq, Repr

/-- `initializeScanner` (ZXing variant, lines 49-87).  `permStream` is the
outcome of the permission-prompting `getUserMedia` call: `none` when the user
denied access (rejection), `some tracks` when a stream was granted.  The stream
tracks are stopped immediately, then devices are enumerated and filtered to
video inputs; an empty video list throws "No cameras found", which the catch
turns into the failure state before `setCameras` ever runs. -/
def initializeScanner (permStream : Option (List Nat))
    (devices : List CameraDevice) : InitResult :=
  match permStream with
  | none =>
    { hasPermission := some false, cameras := [], selectedCamera := "",
      errorMsg := some "Permission denied", throwawayReleased := true }
  | some _tracks =>
    let videoDevices := devices.filter fun d => d.kind = DeviceKind.videoinput
    if videoDevices = [] then
      { hasPermission := some false, cameras := [], selectedCamera := "",
        errorMsg := some "No cameras found", throwawayReleased := true }
    else
      { hasPermission := some true, cameras := videoDevices,
        selectedCamera := selectDefaultDeviceZXing videoDevices,
        errorMsg := none, throwawayReleased := true }

/-! ## Scan events and the part_000 scan loop with stop (C2, C5) -/

/-- Component state touched by `stopScanner` (ZXing variant).
`streamTrackCount` is `some n` while `streamRef.current` holds a live stream
with `n` tracks; `trackStopCalls` counts every `track.stop()` the component has
issued on stream tracks (a double release would stop the same tracks again). -/
structure ScannerState where
  streamTrackCount : Option Nat
  trackStopCalls : Nat
  readerActive : Bool
  videoAttached : Bool
  isScanning : Bool
  debugInfo : String
deriving DecidableEq, Repr

/-- A session that was never opened: no stream, no reader, nothing attached. -/
def neverOpenedState : ScannerState :=
  { streamTrackCount := none, trackStopCalls := 0, readerActive := false,
    videoAttached := false, isScanning := false, debugInfo := "Initializing..." }

/-- `stopScanner` (ZXing variant, lines 210-230): stop and null the stream ref,
reset and null the reader ref, detach the video element, clear the scanning
flag.  Every branch is guarded by the ref being non-null. -/
def stopScanner (s : ScannerState) : ScannerState :=
  let s1 :=
    match s.streamTrackCount with
    | some n =>
      { s with streamTrackCount := none, trackStopCalls := s.trackStopCalls + n }
    | none => s
  { s1 with readerActive := false, videoAttached := false, isScanning := false,
            debugInfo := "Scanner stopped" }

/-- The html5-qrcode library scanner object held in `scannerRef`. -/
structure H5Scanner where
  libScanning : Bool
  stopCalls : Nat
  cleared : Bool
deriving DecidableEq, Repr

/-- Component state of the html5-qrcode variant. -/
structure H5State where
  scanner : Option H5Scanner
  isScanning : Bool
deriving DecidableEq, Repr

/-- `stopScanner` (html5-qrcode variant, part_001 lines 87-93): everything is
guarded by `scannerRef.current?.isScanning`, so a second call (or a call on a
never-started session) does nothing. -/
def stopScannerH5 (s : H5State) : H5State :=
  match s.scanner with
  | some sc =>
    if sc.libScanning then
      { scanner := some { libScanning := false, stopCalls := sc.stopCalls + 1,
                          cleared := true },
        isScanning := false }
    else s
  | none => s

/-! ## Page layer: history, tokens, CO2 (C9) -/

/-- One entry of the page's scan history. -/
structure ScannedItem where
  barcode : String
  fmt : String
  timestamp : Nat
deriving DecidableEq, Repr

/-- Page state relevant to the stats. -/
structure PageState where
  scannedItems : List ScannedItem
  lastScan : Option ScannedItem
deriving DecidableEq, Repr

/-- `handleScanSuccess` (page.tsx lines 47-65): drop a barcode already in the
history less than 3000 ms old, otherwise prepend a new item. -/
def handleScanSuccess (st : PageState) (barcode fmtName : String) (now : Nat) :
    PageState :=
  let isDuplicate := st.scannedItems.any fun item =>
    item.barcode = barcode && decide (now - item.timestamp < 3000)
  if isDuplicate then st
  else
    let newItem : ScannedItem := ⟨barcode, fmtName, now⟩
    { scannedItems := newItem :: st.scannedItems, lastScan := some newItem }

/-- `clearHistory` (page.tsx lines 84-87). -/
def clearHistory (_ : PageState) : PageState := ⟨[], none⟩

/-- `totalTokens = scannedItems.reduce((sum) => sum + 2, 0)` (page.tsx line 89). -/
def totalTokens (items : List ScannedItem) : Nat :=
  items.foldl (fun sum _ => sum + 2) 0

/-- The CO2 figure rendered in the stats grid: `scannedItems.length * 25` grams. -/
def co2SavedGrams (items : List ScannedItem) : Nat := items.length * 25

/-! ## Quagga2/jsQR mode dispatch (C10) -/

/-- The `scanMode` state of the Quagga2/jsQR variant. -/
inductive ScanMode
  | barcode
  | qrcode
  | both
deriving DecidableEq, Repr

/-- The two decoders that variant can start. -/
inductive Decoder
  | quagga
  | jsqr
deriving DecidableEq, Repr

/-- `startScanner` (part_000 lines 234-258): `qrcode` starts the jsQR scanner,
`barcode` starts Quagga, and the `both` branch also starts only Quagga. -/
def startedDecoders : ScanMode → List Decoder
  | ScanMode.qrcode => [Decoder.jsqr]
  | ScanMode.barcode => [Decoder.quagga]
  | ScanMode.both => [Decoder.quagga]

/-- The `decoder.readers` list of the Quagga config (part_000 lines 190-199). -/
def quaggaReaders : List String :=
  ["ean_reader", "ean_8_reader", "upc_reader", "upc_e_reader",
   "code_128_reader", "code_39_reader"]

/-! ## Theorems -/

/-- C1 counterexample: after accepting ("a", time 0) from the initial refs, a
second decode of the same text at time 2000 has let "at least the 2000 ms
window" elapse (the spec-worded predicate accepts it), yet `handleScanResult`
does not forward it - the code demands strictly more than 2000 ms. -/
theorem C1_debounce_counterexample :
    handleScanResult initDebounce "a" 0 = (⟨"a", 0⟩, true) ∧
    specAccepts ⟨"a", 0⟩ "a" 2000 = true ∧
    (handleScanResult ⟨"a", 0⟩ "a" 2000).2 = false ∧
    scanRun initDebounce [("a", 0), ("a", 2000)] = [("a", 0)] := by
  decide

/-- C1 (amended): a decode result is forwarded to `onScanSuccess` iff its text
is non-empty and either differs from the stored last-accepted text or strictly
more than 2000 ms have elapsed since the stored timestamp; the refs are updated
to the accepted text/time exactly on acceptance and are untouched otherwise. -/
theorem C1_debounce_amended (st : DebounceState) (code : String) (now : Nat) :
    ((handleScanResult st code now).2 = true ↔
      code ≠ "" ∧ (code ≠ st.lastText ∨ 2000 < now - st.lastTimestamp)) ∧
    (handleScanResult st code now).1 =
      (if (handleScanResult st code now).2 = true then ⟨code, now⟩ else st) := by
  have hb : (handleScanResult st code now).2 = debounceAccepts st code now := by
    unfold handleScanResult
    split <;> simp_all
  constructor
  · rw [hb]
    simp [debounceAccepts]
  · rw [hb]
    unfold handleScanResult
    split <;> simp_all

/-- C3 counterexample: on the spec's own no-usable-labels input, the
html5-qrcode variant's default selection returns the FIRST enumerated
device "x", not the last device "y". -/
theorem C3_selection_counterexample :
    selectDefaultDeviceHtml5
        [⟨"x", "", DeviceKind.videoinput⟩, ⟨"y", "", DeviceKind.videoinput⟩] =
      "x" ∧
    ("x" : String) ≠ "y" ∧
    ([⟨"x", "", DeviceKind.videoinput⟩, ⟨"y", "", DeviceKind.videoinput⟩] :
        List CameraDevice).getLast? =
      some ⟨"y", "", DeviceKind.videoinput⟩ := by
  decide

/-- C3 (amended): for a non-empty device list with non-empty ids, both
variants return the first device whose lowercased label includes
"back"/"rear"/"environment"; with no label match the ZXing variant falls back
to the LAST enumerated device but the html5-qrcode variant falls back to the
FIRST enumerated device. -/
theorem C3_selection_amended (devs : List CameraDevice) (h : devs ≠ [])
    (hids : devs.all (fun d => d.deviceId ≠ "") = true) :
    selectDefaultDeviceZXing devs =
      (match devs.find? (fun d => labelPrefersBack d.label) with
        | some d => d.deviceId
        | none => (devs.getLast h).deviceId) ∧
    selectDefaultDeviceHtml5 devs =
      (match devs.find? (fun d => labelPrefersBack d.label) with
        | some d => d.deviceId
        | none => (devs.head h).deviceId) := by
  cases hfind : devs.find? (fun d => labelPrefersBack d.label) with
  | some d =>
    have hd : d ∈ devs := List.mem_of_find?_eq_some hfind
    have hid : d.deviceId ≠ "" := by
      have := List.all_eq_true.mp hids d hd
      simpa using this
    simp [selectDefaultDeviceZXing, selectDefaultDeviceHtml5, hfind, hid]
  | none =>
    simp [selectDefaultDeviceZXing, selectDefaultDeviceHtml5, hfind,
      List.getLast?_eq_getLast devs h, List.head?_eq_head h]

/-- C3 witness: applying the amended selection theorem to the spec's
labelled example yields "b" (the back camera) for both variants. -/
theorem C3_selection_amended_witness :
    selectDefaultDeviceZXing
        [⟨"a", "Front Camera", DeviceKind.videoinput⟩,
         ⟨"b", "Back Camera", DeviceKind.videoinput⟩] = "b" ∧
    selectDefaultDeviceHtml5
        [⟨"a", "Front Camera", DeviceKind.videoinput⟩,
         ⟨"b", "Back Camera", DeviceKind.videoinput⟩] = "b" := by
  have h := C3_selection_amended
      [⟨"a", "Front Camera", DeviceKind.videoinput⟩,
       ⟨"b", "Back Camera", DeviceKind.videoinput⟩]
      (by decide) (by decide)
  exact ⟨h.1.trans (by decide), h.2.trans (by decide)⟩

/-- C6: `initializeScanner` reaches the failure state (`hasPermission = false`
with an error recorded) exactly when the permission-prompting `getUserMedia`
rejects or no video-input device is enumerated; in that failure state the
camera list says empty, and in every case the throwaway permission stream's
tracks are all stopped. -/
theorem C6_permission_failure (permStream : Option (List Nat))
    (devices : List CameraDevice) :
    ((initializeScanner permStream devices).hasPermission = some false ↔
      permStream = none ∨
        devices.filter (fun d => d.kind = DeviceKind.videoinput) = []) ∧
    ((initializeScanner permStream devices).errorMsg ≠ none ↔
      permStream = none ∨
        devices.filter (fun d => d.kind = DeviceKind.videoinput) = []) ∧
    (initializeScanner permStream devices).cameras =
      (if permStream = none ∨
          devices.filter (fun d => d.kind = DeviceKind.videoinput) = []
       then []
       else devices.filter (fun d => d.kind = DeviceKind.videoinput)) ∧
    ((initializeScanner permStream devices).hasPermission = some true ↔
      ¬(permStream = none ∨
        devices.filter (fun d => d.kind = DeviceKind.videoinput) = [])) ∧
    (initializeScanner permStream devices).throwawayReleased = true := by
  cases permStream with
  | none => simp [initializeScanner]
  | some t =>
    by_cases hv : devices.filter (fun d => d.kind = DeviceKind.videoinput) = [] <;>
      simp [initializeScanner, hv]

/-- C7: `stopScanner` is idempotent - a second call leaves the state exactly
as the first call left it; the number of `track.stop()` calls it issues is
exactly the live stream's track count (so zero on a never-opened or already
stopped session: no double release); stopping a never-opened session only
updates the debug text; and the html5-qrcode variant's guarded stop is
idempotent as well. -/
theorem C7_stop_idempotent (s : ScannerState) (t : H5State) :
    stopScanner (stopScanner s) = stopScanner s ∧
    (stopScanner s).trackStopCalls =
      s.trackStopCalls + s.streamTrackCount.getD 0 ∧
    stopScanner neverOpenedState =
      { neverOpenedState with debugInfo := "Scanner stopped" } ∧
    stopScannerH5 (stopScannerH5 t) = stopScannerH5 t := by
  refine ⟨?_, ?_, rfl, ?_⟩
  · cases hs : s.streamTrackCount <;> simp [stopScanner, hs]
  · cases hs : s.streamTrackCount <;> simp [stopScanner, hs]
  · rcases t with ⟨sc, fl⟩
    rcases sc with _ | ⟨ls, n, c⟩
    · rfl
    · cases ls <;> simp [stopScannerH5]

/-- C9: the displayed token total is exactly 2 tokens per scanned item, the
displayed CO2-saved figure is exactly 25 grams per scanned item, and both are
zero after `clearHistory` empties the history. -/
theorem C9_stats_invariant (items : List ScannedItem) (st : PageState) :
    totalTokens items = 2 * items.length ∧
    co2SavedGrams items = 25 * items.length ∧
    totalTokens (clearHistory st).scannedItems = 0 ∧
    co2SavedGrams (clearHistory st).scannedItems = 0 := by
  refine ⟨?_, by simp [co2SavedGrams, Nat.mul_comm], rfl, rfl⟩
  have key : ∀ (l : List ScannedItem) (a : Nat),
      l.foldl (fun sum _ => sum + 2) a = a + 2 * l.length := by
    intro l
    induction l with
    | nil => intro a; simp
    | cons x xs ih =>
      intro a
      simp only [List.foldl, ih, List.length_cons]
      ring
  simpa [totalTokens] using key items 0

/-- C10: in the Quagga2/jsQR variant, starting in "both" mode starts only the
Quagga barcode decoder; the jsQR scanner runs exactly when the mode is
"qrcode"; and the Quagga reader configuration contains no QR reader, so "both"
mode decodes no QR codes. -/
theorem C10_both_mode_no_qr (m : ScanMode) :
    startedDecoders ScanMode.both = [Decoder.quagga] ∧
    Decoder.jsqr ∉ startedDecoders ScanMode.both ∧
    (Decoder.jsqr ∈ startedDecoders m ↔ m = ScanMode.qrcode) ∧
    quaggaReaders.contains "qr_reader" = false ∧
    quaggaReaders.all (fun r => decide (r ≠ "qr_reader")) = true := by
  cases m <;> decide
